import Mathlib

/-!
Shallow embedding of the statistics engines of this repository:
`src/estadisticas/base.py` (class `EstadisticaBase` plus the module-level
functions `rango` and `coeficiente_variacion`) and `src/inferencial.py`
(class `InferenciaEstadistica`), together with theorems settling the
specification claims.

Modelling conventions:
* Python exceptions become `Except PyError`; `ValueError` realises the
  spec's `ValidationError`, `TypeError` its `TypeMismatchError` and
  `TypeConversionError`.
* Python float values are modelled exactly: finite values as `ℚ`, the NaN
  sentinel as `none : Option ℚ`, and the additional `+inf` sentinel of
  `coeficiente_variacion` by the three-valued `FVal`.
* The external float operations (the `** 0.5` / `np.sqrt` square root and
  the `scipy.stats` quantile functions `t.ppf` and `norm.ppf`) are
  parameters of the definitions; theorems assume of them only properties
  that are true of the real operations (such as `sqrt 0 = 0`).
* Message strings keep the source's wording with accents transliterated
  to ASCII.
-/

set_option autoImplicit false

namespace Estadistica

/-- Python exception values raised by the modelled code. -/
inductive PyError where
  | typeError (msg : String)
  | valueError (msg : String)
  | attributeError (msg : String)
deriving DecidableEq

/-- The `str(e)` message carried by an exception. -/
def PyError.msg : PyError → String
  | .typeError m => m
  | .valueError m => m
  | .attributeError m => m

/-- The input shapes `EstadisticaBase.__init__` distinguishes: Python
`None`, a `list`, a `tuple`, an already-normalized `pd.Series`, and any
other (unrecognized) object. -/
inductive Datos (α : Type) where
  | pyNone : Datos α
  | list (xs : List α) : Datos α
  | tuple (xs : List α) : Datos α
  | series (xs : List α) : Datos α
  | otherObj : Datos α

/-- `EstadisticaBase.__init__` (src/estadisticas/base.py lines 9-22):
rejects `None` and an empty list or tuple with `ValueError`, normalizes a
list or tuple into a Series, passes a Series through unchanged, and
rejects any other input type with `TypeError`.  Returns the normalized
sample `self.datos`. -/
def initBase {α : Type} : Datos α → Except PyError (List α)
  | .pyNone => .error (.valueError "La lista de datos no puede estar vacia.")
  | .list xs =>
    if xs.isEmpty then .error (.valueError "La lista de datos no puede estar vacia.")
    else .ok xs
  | .tuple xs =>
    if xs.isEmpty then .error (.valueError "La lista de datos no puede estar vacia.")
    else .ok xs
  | .series xs => .ok xs
  | .otherObj => .error (.typeError "El formato de datos debe ser lista, tupla o pd.Series.")

/-- `self._n_observaciones = len(self.datos.dropna())` (base.py line 25):
the number of non-missing observations; `missing` models `pd.isna`. -/
def nObservaciones {α : Type} (missing : α → Bool) (xs : List α) : ℕ :=
  (xs.filter (fun x => !missing x)).length

/-- `InferenciaEstadistica.__init__` (src/inferencial.py lines 12-18):
delegates to `EstadisticaBase.__init__`, then raises `ValueError` when the
non-missing observation count is below 2. -/
def initInferencia {α : Type} (missing : α → Bool) (d : Datos α) :
    Except PyError (List α) :=
  match initBase d with
  | .error e => .error e
  | .ok xs =>
    if nObservaciones missing xs < 2 then
      .error (.valueError "Se requieren al menos 2 observaciones para la inferencia.")
    else .ok xs

/-- A Python value held in a sample: a finite number, a string, or some
other non-numeric object (such as a dict). -/
inductive PyVal where
  | num (q : ℚ)
  | str (s : String)
  | obj
deriving DecidableEq

/-- Python `float()` applied to a string, restricted to the unsigned
integer literals this development evaluates; every other string fails the
conversion, as `float("a")` does. -/
def parseFloatLit (s : String) : Option ℚ :=
  if s.data ≠ [] ∧ s.data.all Char.isDigit then
    some ((s.data.foldl (fun acc c => 10 * acc + (c.toNat - 48)) 0 : ℕ) : ℚ)
  else none

/-- Element-wise `float()` coercion: on a non-numeric string Python raises
`ValueError` ("could not convert string to float: ..."), on a non-string
non-numeric object it raises `TypeError`. -/
def pyFloat : PyVal → Except PyError ℚ
  | .num q => .ok q
  | .str s =>
    match parseFloatLit s with
    | some q => .ok q
    | none => .error (.valueError ("could not convert string to float: " ++ s))
  | .obj => .error (.typeError "float() argument must be a string or a real number")

/-- `self.obtener_datos().astype(float)` (src/inferencial.py line 30):
element-wise float coercion of the stored Series. -/
def astypeFloat (datos : List PyVal) : Except PyError (List ℚ) :=
  datos.mapM pyFloat

/-- `suma` (base.py lines 53-55): Python `sum(self.datos)`, i.e. the left
fold `0 + v0 + v1 + ...`; adding a non-number to a number raises
`TypeError`. -/
def suma (datos : List PyVal) : Except PyError ℚ :=
  datos.foldlM (fun acc v =>
    match v with
    | .num q => Except.ok (acc + q)
    | _ => Except.error (.typeError "unsupported operand type(s) for +")) 0

/-- `media` (base.py lines 57-60): `suma / contar_datos` when the count is
positive, the NaN sentinel (`none`) otherwise.  `contar_datos` is the full
length of the stored sample. -/
def media (datos : List PyVal) : Except PyError (Option ℚ) :=
  if datos.length = 0 then .ok none
  else (suma datos).map (fun s => some (s / (datos.length : ℚ)))

/-- `sum((valor - media) ** 2 for valor in self.datos)` (base.py line 99);
subtracting a float from a non-number raises `TypeError`. -/
def sumaCuadrados (datos : List PyVal) (m : ℚ) : Except PyError ℚ :=
  datos.foldlM (fun acc v =>
    match v with
    | .num q => Except.ok (acc + (q - m) ^ 2)
    | _ => Except.error (.typeError "unsupported operand type(s) for -")) 0

/-- `varianza` (base.py lines 92-100): the NaN sentinel (`none`) when the
sample has fewer than 2 elements, otherwise the sum of squared deviations
from the mean divided by `n - 1`.  A NaN mean would propagate to a NaN
variance, as in float arithmetic. -/
def varianza (datos : List PyVal) : Except PyError (Option ℚ) :=
  if datos.length < 2 then .ok none
  else do
    let m ← media datos
    match m with
    | none => pure none
    | some mq => do
      let sq ← sumaCuadrados datos mq
      pure (some (sq / ((datos.length - 1 : ℕ) : ℚ)))

/-- `desviacion_estandar` (base.py lines 102-104): `np.sqrt(self.varianza())`;
`sqrt` is the external float square root, and the square root of NaN is
NaN. -/
def desviacion_estandar (sqrt : ℚ → ℚ) (datos : List PyVal) :
    Except PyError (Option ℚ) :=
  (varianza datos).map (fun v => v.map sqrt)

/-- The float results of `coeficiente_variacion`: NaN, `+inf`, or a finite
value. -/
inductive FVal where
  | nan
  | inf
  | val (q : ℚ)
deriving DecidableEq

/-- Module-level function `coeficiente_variacion(self)` (base.py lines
112-133): NaN when the mean or the standard deviation is NaN, `0.0` when
the mean and the deviation are both zero, `+inf` when the mean is zero but
the deviation is not, and `(desviacion / media) * 100` otherwise. -/
def coeficiente_variacion (sqrt : ℚ → ℚ) (datos : List PyVal) :
    Except PyError FVal := do
  let m ← media datos
  let desv ← desviacion_estandar sqrt datos
  match m, desv with
  | none, _ => pure .nan
  | _, none => pure .nan
  | some mq, some dq =>
    if mq = 0 then
      if dq = 0 then pure (.val 0) else pure .inf
    else pure (.val (dq / mq * 100))

/-- Binary float arithmetic with NaN (`none`) propagation. -/
def optArith (f : ℚ → ℚ → ℚ) : Option ℚ → Option ℚ → Option ℚ
  | some a, some b => some (f a b)
  | _, _ => none

/-- The `try: ... except TypeError: raise TypeError(...)` wrapper of
inferencial.py lines 32-36: a `TypeError` is re-raised with a fixed
message, everything else passes through. -/
def reRaiseType {β : Type} (msg : String) : Except PyError β → Except PyError β
  | .error (.typeError _) => .error (.typeError msg)
  | r => r

/-- `intervalo_confianza_media` (inferencial.py lines 22-52).  `sqrt`
models the float square root (`** 0.5`), `tppf` models
`scipy.stats.t.ppf(prob, dof)`.  As in the source, the `astype(float)`
result is bound to an unused local (only its exception matters) and the
`try/except TypeError` wraps only the `media` and `desviacion_estandar`
calls.  `n` is the cached `self._n` (non-missing count). -/
def intervalo_confianza_media (sqrt : ℚ → ℚ) (tppf : ℚ → ℕ → ℚ)
    (datos : List PyVal) (n : ℕ) (nivel : ℚ) :
    Except PyError (Option ℚ × Option ℚ) := do
  let _ ← astypeFloat datos
  let md ← reRaiseType "Los datos deben ser numericos para calcular el IC de la media."
    (do
      let m ← media datos
      let d ← desviacion_estandar sqrt datos
      pure (m, d))
  let t_critico := tppf (1 - (1 - nivel) / 2) (n - 1)
  let error_estandar := md.2.map (fun d => d / sqrt (n : ℚ))
  let margen_error := error_estandar.map (fun e => t_critico * e)
  pure (optArith (fun m e => m - e) md.1 margen_error,
        optArith (fun m e => m + e) md.1 margen_error)

/-- `intervalo_confianza_proporcion` (inferencial.py lines 56-85).  `zppf`
models `scipy.stats.norm.ppf`, `sqrt` the float square root (`** 0.5`).
The success count is the pandas element-wise equality sum over the stored
sample; `n` is the cached non-missing count `self._n`. -/
def intervalo_confianza_proporcion (sqrt zppf : ℚ → ℚ) (datos : List PyVal)
    (n : ℕ) (valor_exito : PyVal) (nivel : ℚ) : ℚ × ℚ :=
  let conteo_exito : ℕ := datos.count valor_exito
  let p_hat : ℚ := (conteo_exito : ℚ) / (n : ℚ)
  let q_hat : ℚ := 1 - p_hat
  let z_critico := zppf (1 - (1 - nivel) / 2)
  let error_estandar := sqrt (p_hat * q_hat / (n : ℚ))
  let margen_error := z_critico * error_estandar
  (p_hat - margen_error, p_hat + margen_error)

/-- Values stored in the dictionary returned by `resumen`. -/
inductive RVal where
  | int (n : ℕ)
  | float (q : Option ℚ)
  | interval (p : Option ℚ × Option ℚ)
  | str (s : String)
deriving DecidableEq

/-- The body of the `try:` block of `resumen` (inferencial.py lines
99-102): the entries added when the mean interval succeeds.  The success
key is `"IC Media (94%)"` because `int(0.95 * 100)` is `94` in Python
float arithmetic (`0.95 * 100 == 94.99999999999999`). -/
def resumenIntento (sqrt : ℚ → ℚ) (tppf : ℚ → ℕ → ℚ) (datos : List PyVal)
    (n : ℕ) : Except PyError (List (String × RVal)) := do
  let ic ← intervalo_confianza_media sqrt tppf datos n (95 / 100)
  let m ← media datos
  pure [("Media Muestral", RVal.float m), ("IC Media (94%)", RVal.interval ic)]

/-- `resumen` (inferencial.py lines 89-108): always returns a dictionary
whose first entry is the count `"Conteo"`; a `TypeError` raised while
computing the mean interval is recorded in-band as the fixed
not-applicable marker, any other exception is recorded in-band as
`"Error al calcular: "` followed by its message.  No exception escapes:
the function is total. -/
def resumen (sqrt : ℚ → ℚ) (tppf : ℚ → ℕ → ℚ) (datos : List PyVal) (n : ℕ) :
    List (String × RVal) :=
  ("Conteo", RVal.int n) ::
    match resumenIntento sqrt tppf datos n with
    | .ok entries => entries
    | .error (.typeError _) => [("IC Media", RVal.str "No aplicable (Datos no numericos)")]
    | .error e => [("IC Media", RVal.str ("Error al calcular: " ++ e.msg))]

/-- The attribute names defined inside the class body of `EstadisticaBase`
(base.py lines 9-104).  `rango` and `coeficiente_variacion` (lines
105-133) are defined at module level, outside the class body, and so are
not attributes of the class. -/
def metodos_EstadisticaBase : List String :=
  ["__init__", "resumen", "obtener_datos", "obtener_n_observaciones",
   "contar_datos", "suma", "media", "mediana", "moda", "varianza",
   "desviacion_estandar"]

/-- The attribute names defined inside the class body of
`InferenciaEstadistica` (inferencial.py lines 12-128). -/
def metodos_InferenciaEstadistica : List String :=
  ["__init__", "intervalo_confianza_media", "intervalo_confianza_proporcion",
   "resumen", "__str__"]

/-- The function names bound at module level in
src/estadisticas/base.py (lines 105 and 112). -/
def funciones_modulo_base : List String := ["rango", "coeficiente_variacion"]

/-- Python attribute lookup on an `EstadisticaBase` instance: the name is
found in the class body, or the lookup raises `AttributeError`. -/
def lookupBase (nombre : String) : Except PyError String :=
  if nombre ∈ metodos_EstadisticaBase then .ok nombre
  else .error (.attributeError ("el objeto EstadisticaBase no tiene el atributo " ++ nombre))

/-- Attribute lookup on an `InferenciaEstadistica` instance follows the
method-resolution order: its own class body first, then
`EstadisticaBase`. -/
def lookupInferencia (nombre : String) : Except PyError String :=
  if nombre ∈ metodos_InferenciaEstadistica then .ok nombre
  else lookupBase nombre

/-- The keys of the frequency dictionary built by `moda` (base.py lines
79-81), in Python dict insertion order: the sample is scanned left to
right and a value becomes a new key at its first occurrence. -/
def clavesFrecuencia {α : Type} [DecidableEq α] (l : List α) : List α :=
  l.foldl (fun acc v => if v ∈ acc then acc else acc ++ [v]) []

/-- `max(frecuencias.values())` (base.py line 83): the largest occurrence
count among the sample's distinct values.  For a nonempty sample every
count is at least 1, so the fold's neutral seed 0 never wins. -/
def maxFrecuencia {α : Type} [DecidableEq α] (l : List α) : ℕ :=
  ((clavesFrecuencia l).map (fun v => l.count v)).foldl max 0

/-- The list comprehension of base.py line 89: the distinct values whose
count attains the maximum frequency, in dict order. -/
def valoresModa {α : Type} [DecidableEq α] (l : List α) : List α :=
  (clavesFrecuencia l).filter (fun v => l.count v = maxFrecuencia l)

/-- Result of `moda`: either a single scalar, or a Python list (empty when
there is no mode, the list of tied values otherwise). -/
inductive ModaResult (α : Type) where
  | scalar (a : α)
  | multiple (l : List α)
deriving DecidableEq

/-- `moda` (base.py lines 73-90): empty list for an empty sample; empty
list when every value is unique and the sample has more than one element;
otherwise the single value of maximal count, or the list of all values of
maximal count when there are several. -/
def moda {α : Type} [DecidableEq α] (l : List α) : ModaResult α :=
  if l.length = 0 then .multiple []
  else if maxFrecuencia l = 1 ∧ 1 < l.length then .multiple []
  else
    match valoresModa l with
    | [m] => .scalar m
    | ms => .multiple ms

/-! ### Helper lemmas -/

@[simp] theorem pure_eq_ok {β : Type} (a : β) :
    (pure a : Except PyError β) = Except.ok a := rfl

@[simp] theorem ok_bind {β γ : Type} (a : β) (f : β → Except PyError γ) :
    (Except.ok a : Except PyError β) >>= f = f a := rfl

@[simp] theorem error_bind {β γ : Type} (e : PyError) (f : β → Except PyError γ) :
    (Except.error e : Except PyError β) >>= f = Except.error e := rfl

@[simp] theorem ok_map {β γ : Type} (f : β → γ) (a : β) :
    (Except.ok a : Except PyError β).map f = Except.ok (f a) := rfl

@[simp] theorem error_map {β γ : Type} (f : β → γ) (e : PyError) :
    (Except.error e : Except PyError β).map f = Except.error e := rfl

@[simp] theorem reRaiseType_ok {β : Type} (msg : String) (b : β) :
    reRaiseType msg (Except.ok b) = Except.ok b := rfl

@[simp] theorem optArith_some (f : ℚ → ℚ → ℚ) (a b : ℚ) :
    optArith f (some a) (some b) = some (f a b) := rfl

theorem astypeFloat_map_num (l : List ℚ) :
    astypeFloat (l.map PyVal.num) = Except.ok l := by
  induction l with
  | nil => rfl
  | cons q rest ih =>
    simp only [astypeFloat] at ih ⊢
    rw [List.map_cons, List.mapM_cons, ih]
    simp [pyFloat]

theorem suma_aux (l : List ℚ) (acc : ℚ) :
    List.foldlM (fun acc v =>
      match v with
      | PyVal.num q => Except.ok (acc + q)
      | _ => Except.error (PyError.typeError "unsupported operand type(s) for +"))
      acc (l.map PyVal.num) = Except.ok (acc + l.sum) := by
  induction l generalizing acc with
  | nil => simp
  | cons q rest ih => simp [ih, add_assoc]

theorem suma_map_num (l : List ℚ) : suma (l.map PyVal.num) = Except.ok l.sum := by
  have h := suma_aux l 0
  simpa [suma] using h

theorem sumaCuadrados_aux (m : ℚ) (l : List ℚ) (acc : ℚ) :
    List.foldlM (fun acc v =>
      match v with
      | PyVal.num q => Except.ok (acc + (q - m) ^ 2)
      | _ => Except.error (PyError.typeError "unsupported operand type(s) for -"))
      acc (l.map PyVal.num) = Except.ok (acc + (l.map (fun q => (q - m) ^ 2)).sum) := by
  induction l generalizing acc with
  | nil => simp
  | cons q rest ih => simp [ih, add_assoc]

theorem sumaCuadrados_map_num (l : List ℚ) (m : ℚ) :
    sumaCuadrados (l.map PyVal.num) m =
      Except.ok ((l.map (fun q => (q - m) ^ 2)).sum) := by
  have h := sumaCuadrados_aux m l 0
  simpa [sumaCuadrados] using h

theorem media_map_num (l : List ℚ) (h : l ≠ []) :
    media (l.map PyVal.num) = Except.ok (some (l.sum / (l.length : ℚ))) := by
  have hlen : l.length ≠ 0 := fun e => h (List.length_eq_zero.mp e)
  simp [media, hlen, suma_map_num]

theorem varianza_map_num (l : List ℚ) (h : 2 ≤ l.length) :
    varianza (l.map PyVal.num) =
      Except.ok (some ((l.map (fun q => (q - l.sum / (l.length : ℚ)) ^ 2)).sum /
        ((l.length - 1 : ℕ) : ℚ))) := by
  have hne : l ≠ [] := by
    intro e; subst e; simp at h
  have hlt : ¬ l.length < 2 := Nat.not_lt.mpr h
  simp [varianza, hlt, media_map_num l hne, sumaCuadrados_map_num]

theorem mem_clavesFrecuencia_aux {α : Type} [DecidableEq α] (l : List α) :
    ∀ (acc : List α) (v : α),
      v ∈ l.foldl (fun acc v => if v ∈ acc then acc else acc ++ [v]) acc ↔
        v ∈ acc ∨ v ∈ l := by
  induction l with
  | nil => intro acc v; simp
  | cons w rest ih =>
    intro acc v
    rw [List.foldl_cons, ih]
    by_cases hw : w ∈ acc
    · rw [if_pos hw]
      constructor
      · rintro (h | h)
        · exact Or.inl h
        · exact Or.inr (List.mem_cons_of_mem _ h)
      · rintro (h | h)
        · exact Or.inl h
        · rcases List.mem_cons.mp h with rfl | h2
          · exact Or.inl hw
          · exact Or.inr h2
    · rw [if_neg hw]
      simp only [List.mem_append, List.mem_singleton, List.mem_cons]
      tauto

theorem mem_clavesFrecuencia {α : Type} [DecidableEq α] (l : List α) (v : α) :
    v ∈ clavesFrecuencia l ↔ v ∈ l := by
  unfold clavesFrecuencia
  rw [mem_clavesFrecuencia_aux]
  simp

theorem init_le_foldl_max (ns : List ℕ) : ∀ a : ℕ, a ≤ ns.foldl max a := by
  induction ns with
  | nil => intro a; exact le_refl a
  | cons y rest ih =>
    intro a
    exact le_trans (Nat.le_max_left a y) (ih (max a y))

theorem le_foldl_max (ns : List ℕ) : ∀ (a x : ℕ), x ∈ ns → x ≤ ns.foldl max a := by
  induction ns with
  | nil => intro a x h; cases h
  | cons y rest ih =>
    intro a x h
    rcases List.mem_cons.mp h with rfl | h2
    · exact le_trans (Nat.le_max_right a x) (init_le_foldl_max rest (max a x))
    · exact ih (max a y) x h2

theorem foldl_max_of_all_le (ns : List ℕ) : ∀ a : ℕ, (∀ x ∈ ns, x ≤ a) → ns.foldl max a = a := by
  induction ns with
  | nil => intro a _; rfl
  | cons x rest ih =>
    intro a h
    have hx : max a x = a := Nat.max_eq_left (h x (by simp))
    rw [List.foldl_cons, hx]
    exact ih a (fun y hy => h y (by simp [hy]))

theorem foldl_max_of_all_one (ns : List ℕ) (h1 : ∀ x ∈ ns, x = 1) (hne : ns ≠ []) :
    ns.foldl max 0 = 1 := by
  cases ns with
  | nil => exact absurd rfl hne
  | cons c rest =>
    have hc : c = 1 := h1 c (by simp)
    subst hc
    rw [List.foldl_cons, show max 0 1 = 1 from rfl]
    exact foldl_max_of_all_le rest 1 (fun x hx => le_of_eq (h1 x (by simp [hx])))

theorem count_le_maxFrecuencia {α : Type} [DecidableEq α] (l : List α) (v : α)
    (h : v ∈ l) : l.count v ≤ maxFrecuencia l := by
  apply le_foldl_max
  exact List.mem_map_of_mem _ ((mem_clavesFrecuencia l v).mpr h)

theorem maxFrecuencia_of_nodup {α : Type} [DecidableEq α] (l : List α)
    (hd : l.Nodup) (hne : l ≠ []) : maxFrecuencia l = 1 := by
  unfold maxFrecuencia
  apply foldl_max_of_all_one
  · intro x hx
    rcases List.mem_map.mp hx with ⟨k, hk, rfl⟩
    exact List.count_eq_one_of_mem hd ((mem_clavesFrecuencia l k).mp hk)
  · cases l with
    | nil => exact absurd rfl hne
    | cons w rest =>
      have hw : w ∈ clavesFrecuencia (w :: rest) :=
        (mem_clavesFrecuencia _ w).mpr (List.mem_cons_self _ _)
      intro hmapnil
      rw [List.map_eq_nil_iff] at hmapnil
      rw [hmapnil] at hw
      cases hw

/-- On a sample in which every element equals the success value, the
proportion interval degenerates: `p_hat = 1`, `q_hat = 0`, and the margin
of error is `z * sqrt 0 = 0`, so the returned pair is exactly `(1, 1)`. -/
theorem ic_proporcion_todos_iguales (sqrt zppf : ℚ → ℚ) (datos : List PyVal)
    (n : ℕ) (valor : PyVal) (nivel : ℚ) (hsqrt : sqrt 0 = 0) (hn : 0 < n)
    (hlen : datos.length = n) (hall : ∀ v ∈ datos, v = valor) :
    intervalo_confianza_proporcion sqrt zppf datos n valor nivel = (1, 1) := by
  have hcount : datos.count valor = n := by
    rw [← hlen]
    exact List.count_eq_length.mpr (fun b hb => (hall b hb).symm)
  have hnne : (n : ℚ) ≠ 0 := Nat.cast_ne_zero.mpr (Nat.pos_iff_ne_zero.mp hn)
  have hp : ((n : ℕ) : ℚ) / (n : ℚ) = 1 := div_self hnne
  simp only [intervalo_confianza_proporcion, hcount, hp]
  norm_num [hsqrt]

end Estadistica

deriving instance DecidableEq for Except

namespace Estadistica

/-! ### Claim theorems -/

/-- C1: evaluation of `resumen` at the failing input `['a', 'b']` (a
sample of non-numeric strings).  `Series.astype(float)` raises
`ValueError` for such strings, which the `except TypeError` branch of
`resumen` does not catch, so the generic branch records
`"Error al calcular: ..."` in-band — not the not-applicable marker that
the claim (and the code's own message for non-numeric data) prescribes.
Only non-string objects, whose `float()` coercion raises `TypeError`,
reach the `"No aplicable"` branch, as the third conjunct shows. -/
theorem claim_C1_resumen_nonnumeric_branch :
    resumen id (fun _ _ => 0) [PyVal.str "a", PyVal.str "b"] 2 =
      [("Conteo", RVal.int 2),
       ("IC Media", RVal.str "Error al calcular: could not convert string to float: a")] ∧
    "Error al calcular: could not convert string to float: a" ≠
      "No aplicable (Datos no numericos)" ∧
    resumen id (fun _ _ => 0) [PyVal.obj, PyVal.obj] 2 =
      [("Conteo", RVal.int 2),
       ("IC Media", RVal.str "No aplicable (Datos no numericos)")] := by
  refine ⟨by decide, by decide, by decide⟩

/-- C2: `rango` and `coeficiente_variacion` are bound at module level in
src/estadisticas/base.py, not in the class body of `EstadisticaBase`, so
attribute lookup of either name on an instance of `EstadisticaBase` or of
`InferenciaEstadistica` raises `AttributeError`; the computation is
reachable only through the free function with the engine's data passed
explicitly, as the final conjunct evaluates for `coeficiente_variacion`. -/
theorem claim_C2_rango_cv_module_level :
    lookupBase "rango" =
      .error (.attributeError "el objeto EstadisticaBase no tiene el atributo rango") ∧
    lookupBase "coeficiente_variacion" =
      .error (.attributeError
        "el objeto EstadisticaBase no tiene el atributo coeficiente_variacion") ∧
    lookupInferencia "rango" =
      .error (.attributeError "el objeto EstadisticaBase no tiene el atributo rango") ∧
    lookupInferencia "coeficiente_variacion" =
      .error (.attributeError
        "el objeto EstadisticaBase no tiene el atributo coeficiente_variacion") ∧
    "rango" ∈ funciones_modulo_base ∧
    "coeficiente_variacion" ∈ funciones_modulo_base ∧
    coeficiente_variacion (fun _ => 0) ([2, 2].map (fun q : ℚ => PyVal.num q)) =
      .ok (.val 0) := by
  refine ⟨by decide, by decide, by decide, by decide, by decide, by decide, ?_⟩
  have hm : media ([2, 2].map (fun q : ℚ => PyVal.num q)) = .ok (some 2) := by
    rw [media_map_num _ (by simp)]
    norm_num
  have hv : varianza ([2, 2].map (fun q : ℚ => PyVal.num q)) = .ok (some 0) := by
    rw [varianza_map_num _ (by simp)]
    norm_num
  have hd : desviacion_estandar (fun _ => 0) ([2, 2].map (fun q : ℚ => PyVal.num q)) =
      .ok (some 0) := by
    rw [desviacion_estandar, hv]
    rfl
  unfold coeficiente_variacion
  rw [hm, ok_bind, hd, ok_bind]
  norm_num

/-- C3 counterexample: an empty `pd.Series` is an accepted
already-normalized-container input, yet construction succeeds — the
emptiness check of base.py line 13 applies only to lists and tuples — so
a successfully constructed engine can hold an empty sample, contradicting
the claim that construction on an empty sequence always fails with
`ValidationError`. -/
theorem claim_C3_counterexample :
    initBase (Datos.series ([] : List ℚ)) = Except.ok [] ∧
    ([] : List ℚ).length = 0 :=
  ⟨rfl, rfl⟩

/-- C3 amended: construction on `None`, an empty list, or an empty tuple
fails with `ValueError` (the spec's `ValidationError`); a nonempty list or
tuple and every already-normalized container (`pd.Series`) — including an
empty one — are accepted, the constructed engine holding exactly that
sequence; an input of unrecognized type fails with `TypeError`. -/
theorem claim_C3_amended {α : Type} :
    initBase (Datos.pyNone : Datos α) =
      .error (.valueError "La lista de datos no puede estar vacia.") ∧
    (∀ xs : List α, xs.isEmpty = true →
      initBase (Datos.list xs) =
        .error (.valueError "La lista de datos no puede estar vacia.") ∧
      initBase (Datos.tuple xs) =
        .error (.valueError "La lista de datos no puede estar vacia.")) ∧
    (∀ xs : List α, xs.isEmpty = false →
      initBase (Datos.list xs) = .ok xs ∧ initBase (Datos.tuple xs) = .ok xs) ∧
    (∀ xs : List α, initBase (Datos.series xs) = .ok xs) ∧
    initBase (Datos.otherObj : Datos α) =
      .error (.typeError "El formato de datos debe ser lista, tupla o pd.Series.") := by
  refine ⟨rfl, ?_, ?_, fun xs => rfl, rfl⟩
  · intro xs h
    exact ⟨by simp [initBase, h], by simp [initBase, h]⟩
  · intro xs h
    exact ⟨by simp [initBase, h], by simp [initBase, h]⟩

/-- C3 witness: the amended theorem evaluated at an empty and at a
nonempty list of rationals. -/
theorem claim_C3_amended_witness :
    initBase (Datos.list ([] : List ℚ)) =
      .error (.valueError "La lista de datos no puede estar vacia.") ∧
    initBase (Datos.list [(5 : ℚ)]) = .ok [5] :=
  ⟨((@claim_C3_amended ℚ).2.1 [] rfl).1, ((@claim_C3_amended ℚ).2.2.1 [5] rfl).1⟩

/-- C4: for every successfully constructed `InferenciaEstadistica`,
whatever the element types of its data, `resumen` is total (in the model
it returns a plain dictionary rather than an `Except`: every exception of
the mean-interval computation is caught inside it) and its first entry is
the observation count `"Conteo"`. -/
theorem claim_C4_resumen_total (sqrt : ℚ → ℚ) (tppf : ℚ → ℕ → ℚ)
    (missing : PyVal → Bool) (d : Datos PyVal) (xs : List PyVal)
    (_h : initInferencia missing d = .ok xs) :
    ("Conteo", RVal.int (nObservaciones missing xs)) ∈
      resumen sqrt tppf xs (nObservaciones missing xs) ∧
    (resumen sqrt tppf xs (nObservaciones missing xs)).head? =
      some ("Conteo", RVal.int (nObservaciones missing xs)) :=
  ⟨List.mem_cons_self _ _, rfl⟩

/-- C4 witness: a constructed engine over non-numeric string data. -/
theorem claim_C4_resumen_total_witness :
    ("Conteo", RVal.int (nObservaciones (fun _ => false) [PyVal.str "a", PyVal.str "b"])) ∈
      resumen id (fun _ _ => 0) [PyVal.str "a", PyVal.str "b"]
        (nObservaciones (fun _ => false) [PyVal.str "a", PyVal.str "b"]) :=
  (claim_C4_resumen_total id (fun _ _ => 0) (fun _ => false)
    (Datos.list [PyVal.str "a", PyVal.str "b"]) [PyVal.str "a", PyVal.str "b"] rfl).1

/-- C7: `moda` returns the empty list when all elements are distinct and
the sample has more than one element; the list of all tied values (the
claim's "set") when at least two values attain a maximal frequency of at
least 2; and a single scalar when exactly one value attains the maximum;
concretely `moda [1,1,2,2,3]` is the two-value tie `[1, 2]` (the set
`{1, 2}`), `moda [1,2,3]` is empty, and `moda [1,1,2]` is the scalar 1. -/
theorem claim_C7_moda :
    (∀ (α : Type) [DecidableEq α] (l : List α), l.Nodup → 1 < l.length →
      moda l = .multiple []) ∧
    (∀ (α : Type) [DecidableEq α] (l : List α), 2 ≤ maxFrecuencia l →
      2 ≤ (valoresModa l).length → moda l = .multiple (valoresModa l)) ∧
    (∀ (α : Type) [DecidableEq α] (l : List α) (m : α), valoresModa l = [m] →
      l ≠ [] → moda l = .scalar m) ∧
    moda [1, 1, 2, 2, 3] = ModaResult.multiple [1, 2] ∧
    moda [1, 2, 3] = (ModaResult.multiple [] : ModaResult ℕ) ∧
    moda [1, 1, 2] = ModaResult.scalar 1 := by
  refine ⟨?_, ?_, ?_, by decide, by decide, by decide⟩
  · intro α inst l hd hlen
    have hne : l ≠ [] := by
      intro e
      subst e
      simp at hlen
    have hmax := maxFrecuencia_of_nodup l hd hne
    unfold moda
    rw [if_neg (by omega), if_pos ⟨hmax, hlen⟩]
  · intro α inst l hmax hlen2
    have hne0 : ¬ l.length = 0 := by
      intro h0
      have he : l = [] := List.length_eq_zero.mp h0
      subst he
      simp [maxFrecuencia, clavesFrecuencia] at hmax
    have hnot : ¬ (maxFrecuencia l = 1 ∧ 1 < l.length) := by
      rintro ⟨h1, _⟩
      omega
    unfold moda
    rw [if_neg hne0, if_neg hnot]
    rcases hv : valoresModa l with _ | ⟨m1, _ | ⟨m2, rest2⟩⟩
    · rfl
    · rw [hv] at hlen2
      simp at hlen2
    · rfl
  · intro α inst l m hv hne
    have hne0 : ¬ l.length = 0 := fun h0 => hne (List.length_eq_zero.mp h0)
    have hnot : ¬ (maxFrecuencia l = 1 ∧ 1 < l.length) := by
      rintro ⟨h1, hl1⟩
      have hkeys : valoresModa l = clavesFrecuencia l := by
        unfold valoresModa
        apply List.filter_eq_self.mpr
        intro k hk
        have hkl : k ∈ l := (mem_clavesFrecuencia l k).mp hk
        have hle : l.count k ≤ 1 := h1 ▸ count_le_maxFrecuencia l k hkl
        have hge : 0 < l.count k := List.count_pos_iff.mpr hkl
        have hck : l.count k = 1 := by omega
        simp [hck, h1]
      rw [hkeys] at hv
      have hall : ∀ b ∈ l, m = b := by
        intro b hb
        have hbk : b ∈ clavesFrecuencia l := (mem_clavesFrecuencia l b).mpr hb
        rw [hv] at hbk
        have : b = m := by simpa using hbk
        exact this.symm
      have hcount : l.count m = l.length := List.count_eq_length.mpr hall
      have hmem : m ∈ l := by
        have hmk : m ∈ clavesFrecuencia l := by
          rw [hv]
          simp
        exact (mem_clavesFrecuencia l m).mp hmk
      have hle : l.count m ≤ 1 := h1 ▸ count_le_maxFrecuencia l m hmem
      omega
    unfold moda
    rw [if_neg hne0, if_neg hnot, hv]

/-- C7 witness: the all-distinct clause at `[4, 5, 6]` and the
single-mode clause at the singleton `[9]`. -/
theorem claim_C7_moda_witness :
    moda [4, 5, 6] = (ModaResult.multiple [] : ModaResult ℕ) ∧
    moda [(9 : ℤ)] = ModaResult.scalar 9 :=
  ⟨claim_C7_moda.1 ℕ [4, 5, 6] (by decide) (by decide),
   claim_C7_moda.2.2.1 ℤ [(9 : ℤ)] 9 (by decide) (by decide)⟩

/-- C10: `InferenciaEstadistica.__init__` delegates to the base
constructor — any base failure propagates unchanged — and then fails with
`ValueError` exactly when the non-missing observation count is below 2;
with at least 2 non-missing observations it succeeds with the normalized
sample. -/
theorem claim_C10_construction {α : Type} (missing : α → Bool) (d : Datos α) :
    (∀ e, initBase d = .error e → initInferencia missing d = .error e) ∧
    (∀ xs, initBase d = .ok xs → nObservaciones missing xs < 2 →
      initInferencia missing d =
        .error (.valueError "Se requieren al menos 2 observaciones para la inferencia.")) ∧
    (∀ xs, initBase d = .ok xs → 2 ≤ nObservaciones missing xs →
      initInferencia missing d = .ok xs) := by
  refine ⟨?_, ?_, ?_⟩
  · intro e h
    simp [initInferencia, h]
  · intro xs h hn
    simp [initInferencia, h, hn]
  · intro xs h hn
    simp [initInferencia, h, Nat.not_lt.mpr hn]

/-- C5 counterexample: on a two-element sample where both elements equal
the success value the code returns exactly the pair `(1, 1)`: the sample
proportion is 1, so `q_hat = 0` and the margin of error is
`z * sqrt 0 = 0` — no margin can push the upper bound above 1 on an
all-success sample, contrary to the claim (evaluated with a float square
root sending 0 to 0 and the 0.975 Normal quantile 1.96). -/
theorem claim_C5_counterexample :
    intervalo_confianza_proporcion id (fun _ => 196 / 100)
      (List.replicate 2 (PyVal.num 5)) 2 (PyVal.num 5) (95 / 100) = (1, 1) :=
  ic_proporcion_todos_iguales id (fun _ => 196 / 100)
    (List.replicate 2 (PyVal.num 5)) 2 (PyVal.num 5) (95 / 100)
    rfl (by decide) (by decide) (by decide)

/-- C5 amended: `intervalo_confianza_proporcion` returns the unclamped
pair `(p - margin, p + margin)` with `p = count/n`, `q = 1 - p` and
`margin = z * sqrt (p * q / n)`, where `z` is the two-tailed Normal
quantile at `1 - (1 - confidence) / 2`; on a sample where every element
equals the success value the proportion is 1 and the margin is exactly 0
— not a margin that may push the upper bound above 1 — so the interval is
exactly `(1, 1)`. -/
theorem claim_C5_amended (sqrt zppf : ℚ → ℚ) (datos : List PyVal) (n : ℕ)
    (valor : PyVal) (nivel : ℚ) :
    intervalo_confianza_proporcion sqrt zppf datos n valor nivel =
      (((datos.count valor : ℚ) / (n : ℚ)) -
         zppf (1 - (1 - nivel) / 2) *
           sqrt (((datos.count valor : ℚ) / (n : ℚ)) *
             (1 - (datos.count valor : ℚ) / (n : ℚ)) / (n : ℚ)),
       ((datos.count valor : ℚ) / (n : ℚ)) +
         zppf (1 - (1 - nivel) / 2) *
           sqrt (((datos.count valor : ℚ) / (n : ℚ)) *
             (1 - (datos.count valor : ℚ) / (n : ℚ)) / (n : ℚ))) ∧
    (sqrt 0 = 0 → 0 < n → datos.length = n → (∀ v ∈ datos, v = valor) →
      intervalo_confianza_proporcion sqrt zppf datos n valor nivel = (1, 1)) :=
  ⟨rfl, fun h1 h2 h3 h4 =>
    ic_proporcion_todos_iguales sqrt zppf datos n valor nivel h1 h2 h3 h4⟩

/-- C5 witness: the amended theorem applied to three copies of the
numeric value 7. -/
theorem claim_C5_amended_witness :
    intervalo_confianza_proporcion id (fun _ => 196 / 100)
      (List.replicate 3 (PyVal.num 7)) 3 (PyVal.num 7) (95 / 100) = (1, 1) :=
  (claim_C5_amended id (fun _ => 196 / 100) (List.replicate 3 (PyVal.num 7)) 3
    (PyVal.num 7) (95 / 100)).2 rfl (by decide) (by decide) (by decide)

/-- C6: on a sample of `n ≥ 2` identical numeric values `x`,
`intervalo_confianza_media` collapses to the point interval `(x, x)`: the
sample variance is 0, so — the float square root of 0 being 0 — the
standard deviation, the standard error and the margin of error are all 0,
and both bounds equal the sample mean `x`. -/
theorem claim_C6_identical_values (sqrt : ℚ → ℚ) (tppf : ℚ → ℕ → ℚ)
    (n : ℕ) (x nivel : ℚ) (hn : 2 ≤ n) (hsqrt : sqrt 0 = 0) :
    intervalo_confianza_media sqrt tppf ((List.replicate n x).map PyVal.num)
      n nivel = Except.ok (some x, some x) := by
  have hlen : (List.replicate n x).length = n := List.length_replicate n x
  have hne : List.replicate n x ≠ [] := by
    intro e
    rw [e] at hlen
    simp at hlen
    omega
  have hnne : (n : ℚ) ≠ 0 := Nat.cast_ne_zero.mpr (by omega)
  have hsum : (List.replicate n x).sum = (n : ℚ) * x := by
    rw [List.sum_replicate]
    exact nsmul_eq_mul n x
  have hx : (n : ℚ) * x / (n : ℚ) = x := mul_div_cancel_left₀ x hnne
  have hm : media ((List.replicate n x).map PyVal.num) = .ok (some x) := by
    rw [media_map_num _ hne, hsum, hlen, hx]
  have hvar : varianza ((List.replicate n x).map PyVal.num) = .ok (some 0) := by
    rw [varianza_map_num _ (by rw [hlen]; exact hn), hsum, hlen, hx]
    simp
  have hd : desviacion_estandar sqrt ((List.replicate n x).map PyVal.num) =
      .ok (some 0) := by
    rw [desviacion_estandar, hvar]
    simp [hsqrt]
  have hmd : (do
      let m ← media ((List.replicate n x).map PyVal.num)
      let d ← desviacion_estandar sqrt ((List.replicate n x).map PyVal.num)
      pure (m, d) : Except PyError (Option ℚ × Option ℚ)) =
        .ok (some x, some 0) := by
    rw [hm, ok_bind, hd, ok_bind]
    rfl
  unfold intervalo_confianza_media
  rw [astypeFloat_map_num, ok_bind, hmd, reRaiseType_ok, ok_bind]
  simp

/-- C6 witness: two copies of the value 3 with the identity as the
modelled square root and a constant t-quantile. -/
theorem claim_C6_identical_values_witness :
    intervalo_confianza_media id (fun _ _ => 2) ((List.replicate 2 (3 : ℚ)).map PyVal.num)
      2 (95 / 100) = Except.ok (some 3, some 3) :=
  claim_C6_identical_values id (fun _ _ => 2) 2 3 (95 / 100) (by decide) rfl

/-- C8: `coeficiente_variacion` returns 0.0 when the mean and the
standard deviation are both 0 (concretely on `[0,0,0]`); `+inf` when the
mean is 0 and the deviation is not (concretely on `[0,5,-5]`, whose
deviation is `sqrt 25`); the NaN sentinel whenever the mean or the
deviation is NaN; and `(deviation / mean) * 100` in every other case. -/
theorem claim_C8_coeficiente_variacion (sqrt : ℚ → ℚ) :
    (sqrt 0 = 0 →
      coeficiente_variacion sqrt ([0, 0, 0].map (fun q : ℚ => PyVal.num q)) =
        .ok (.val 0)) ∧
    (sqrt 25 ≠ 0 →
      coeficiente_variacion sqrt ([0, 5, -5].map (fun q : ℚ => PyVal.num q)) =
        .ok .inf) ∧
    (∀ datos : List PyVal, media datos = .ok none →
      ∀ r, desviacion_estandar sqrt datos = .ok r →
        coeficiente_variacion sqrt datos = .ok .nan) ∧
    (∀ (datos : List PyVal) (m : ℚ), media datos = .ok (some m) →
      desviacion_estandar sqrt datos = .ok none →
        coeficiente_variacion sqrt datos = .ok .nan) ∧
    (∀ (datos : List PyVal) (m d : ℚ), media datos = .ok (some m) →
      desviacion_estandar sqrt datos = .ok (some d) → m ≠ 0 →
        coeficiente_variacion sqrt datos = .ok (.val (d / m * 100))) := by
  refine ⟨?_, ?_, ?_, ?_, ?_⟩
  · intro h0
    have hm : media ([0, 0, 0].map (fun q : ℚ => PyVal.num q)) = .ok (some 0) := by
      rw [media_map_num _ (by simp)]
      norm_num
    have hv : varianza ([0, 0, 0].map (fun q : ℚ => PyVal.num q)) = .ok (some 0) := by
      rw [varianza_map_num _ (by simp)]
      norm_num
    have hd : desviacion_estandar sqrt ([0, 0, 0].map (fun q : ℚ => PyVal.num q)) =
        .ok (some (sqrt 0)) := by
      rw [desviacion_estandar, hv]
      rfl
    unfold coeficiente_variacion
    rw [hm, ok_bind, hd, ok_bind, h0]
    simp
  · intro h25
    have hm : media ([0, 5, -5].map (fun q : ℚ => PyVal.num q)) = .ok (some 0) := by
      rw [media_map_num _ (by simp)]
      norm_num
    have hv : varianza ([0, 5, -5].map (fun q : ℚ => PyVal.num q)) = .ok (some 25) := by
      rw [varianza_map_num _ (by simp)]
      norm_num
    have hd : desviacion_estandar sqrt ([0, 5, -5].map (fun q : ℚ => PyVal.num q)) =
        .ok (some (sqrt 25)) := by
      rw [desviacion_estandar, hv]
      rfl
    unfold coeficiente_variacion
    rw [hm, ok_bind, hd, ok_bind]
    simp [h25]
  · intro datos hm r hd
    unfold coeficiente_variacion
    rw [hm, ok_bind, hd, ok_bind]
    cases r <;> rfl
  · intro datos m hm hd
    unfold coeficiente_variacion
    rw [hm, ok_bind, hd, ok_bind]
    rfl
  · intro datos m d hm hd hmne
    unfold coeficiente_variacion
    rw [hm, ok_bind, hd, ok_bind]
    simp [hmne]

/-- C8 witness: the three concrete regimes, with the float square root
modelled by the function sending 25 to 5 and everything else to 0. -/
theorem claim_C8_coeficiente_variacion_witness :
    coeficiente_variacion (fun q : ℚ => if q = 25 then 5 else 0)
      ([0, 0, 0].map (fun q : ℚ => PyVal.num q)) = .ok (.val 0) ∧
    coeficiente_variacion (fun q : ℚ => if q = 25 then 5 else 0)
      ([0, 5, -5].map (fun q : ℚ => PyVal.num q)) = .ok .inf ∧
    coeficiente_variacion (fun q : ℚ => if q = 25 then 5 else 0) [] = .ok .nan :=
  ⟨(claim_C8_coeficiente_variacion (fun q : ℚ => if q = 25 then 5 else 0)).1 (by decide),
   (claim_C8_coeficiente_variacion (fun q : ℚ => if q = 25 then 5 else 0)).2.1 (by decide),
   (claim_C8_coeficiente_variacion (fun q : ℚ => if q = 25 then 5 else 0)).2.2.1 [] rfl
     none rfl⟩

/-- C9: `varianza` implements the Bessel-corrected sample variance — the
sum of squared deviations from the mean divided by `n - 1` — for every
sample of at least 2 numeric elements, and yields the NaN sentinel for
any sample with fewer than 2 elements; concretely a singleton gives NaN
and `[2,2,2,2]` gives 0. -/
theorem claim_C9_varianza :
    (∀ x : ℚ, varianza [PyVal.num x] = Except.ok none) ∧
    varianza ([2, 2, 2, 2].map (fun q : ℚ => PyVal.num q)) = Except.ok (some 0) ∧
    (∀ l : List ℚ, 2 ≤ l.length →
      varianza (l.map PyVal.num) =
        Except.ok (some ((l.map (fun q => (q - l.sum / (l.length : ℚ)) ^ 2)).sum /
          ((l.length - 1 : ℕ) : ℚ)))) := by
  refine ⟨fun x => rfl, ?_, fun l h => varianza_map_num l h⟩
  rw [varianza_map_num _ (by simp)]
  norm_num

/-- C9 witness: the general Bessel form of the theorem applied to the
two-element sample `[1, 3]`, and the singleton NaN case at 7. -/
theorem claim_C9_varianza_witness :
    varianza [PyVal.num 7] = Except.ok none ∧
    varianza (([1, 3] : List ℚ).map PyVal.num) =
      Except.ok (some
        ((([1, 3] : List ℚ).map
            (fun q => (q - ([1, 3] : List ℚ).sum / ((([1, 3] : List ℚ).length : ℕ) : ℚ)) ^ 2)).sum /
          (((([1, 3] : List ℚ).length : ℕ) - 1 : ℕ) : ℚ))) :=
  ⟨claim_C9_varianza.1 7, claim_C9_varianza.2.2 [1, 3] (by decide)⟩

/-- C10 witness: a three-element sample with a single non-missing
observation (n = 1) is rejected by the inference constructor even though
the base constructor accepts it. -/
theorem claim_C10_construction_witness :
    initInferencia (fun o => o.isNone) (Datos.list [some (1 : ℚ), none, none]) =
      .error (.valueError "Se requieren al menos 2 observaciones para la inferencia.") :=
  (claim_C10_construction (fun o => o.isNone)
    (Datos.list [some (1 : ℚ), none, none])).2.1 [some 1, none, none] rfl (by decide)

end Estadistica
